import Mathlib

/-!
Shallow embedding of the G1 glasses pairing manager (connector/pairing.py)
and device session manager (services/device.py).

External collaborators (the radio transport, the config store, the command
dispatcher, the connector's state manager) are modelled by explicit outcome
parameters threaded into each operation; an exception raised by an awaited
call is modelled with the Except monad.  Each public operation is split into
a body (the code inside its outermost try block, which can end in an error)
and a total wrapper that handles the error case exactly where the source
installs its catch-all except handler.  Logging and console printing have no
observable effect and are not modelled; the asyncio pairing lock only
serializes and is not modelled in this single-threaded semantics.
-/

/-- Character-list prefix test used to model Python's substring operator. -/
def listStarts : List Char → List Char → Bool
  | [], _ => true
  | _ :: _, [] => false
  | p :: ps, c :: cs => p == c && listStarts ps cs

/-- Character-list substring test. -/
def listHasSub (p : List Char) : List Char → Bool
  | [] => listStarts p []
  | c :: cs => listStarts p (c :: cs) || listHasSub p cs

/-- Python's substring containment (the expression marker in name). -/
def containsMarker (marker s : String) : Bool :=
  listHasSub marker.data s.data

/-- One advertised radio device as reported by a scan.  A missing (None)
advertised name is modelled as the empty string; both are falsy in the
source's truthiness test on device.name. -/
structure Device where
  name : String
  address : String
  rssi : Int
deriving DecidableEq

/-- One side's entry in the discovery result dict. -/
structure Entry where
  address : String
  name : String
  rssi : Int
deriving DecidableEq

/-- The discovery result dict: at most one candidate per side; a field is
none when the corresponding key is absent. -/
structure DiscoveryResult where
  left : Option Entry
  right : Option Entry
deriving DecidableEq

/-- The dict literal stored for a classified device. -/
def toEntry (d : Device) : Entry := ⟨d.address, d.name, d.rssi⟩

/-- One iteration of the classification loop in discover_glasses: a truthy
name containing marker _L_ overwrites the left slot, else one containing
marker _R_ overwrites the right slot, else the device is ignored. -/
def classifyStep (acc : DiscoveryResult) (d : Device) : DiscoveryResult :=
  if d.name == "" then acc
  else if containsMarker "_L_" d.name then { acc with left := some (toEntry d) }
  else if containsMarker "_R_" d.name then { acc with right := some (toEntry d) }
  else acc

/-- The whole classification loop over the scan results, in observed order. -/
def classifyFold (devices : List Device) : DiscoveryResult :=
  devices.foldl classifyStep ⟨none, none⟩

/-- In-memory pairing-manager state: the discovery cache and the time of the
last scan. -/
structure PMState where
  cache : DiscoveryResult
  lastScan : ℚ
deriving DecidableEq

/-- The config store: the in-memory config object (mem) and the durable
record (disk) written by save(). -/
structure ConfigData where
  left_address : Option String
  right_address : Option String
  left_name : Option String
  right_name : Option String
  left_paired : Bool
  right_paired : Bool
deriving DecidableEq

/-- The config store pairs the mutable in-memory object with the persisted
record; save() copies mem onto disk. -/
structure ConfigStore where
  mem : ConfigData
  disk : ConfigData
deriving DecidableEq

/-- Python truthiness test on an optional address string: falsy when the
attribute is None or the empty string. -/
def addrFalsy : Option String → Bool
  | none => true
  | some s => s == ""

/-- Python truthiness of the discovery cache dict: empty iff neither key is
present. -/
def cacheEmptyB (c : DiscoveryResult) : Bool :=
  c.left.isNone && c.right.isNone

/-- Boolean test for the error case of an Except value. -/
def excIsError : Except ε α → Bool
  | Except.error _ => true
  | Except.ok _ => false

/-- Body of discover_glasses (inside its try block): the scan either raises
or yields the advertised devices; on success the classification result also
replaces the discovery cache and timestamp. -/
def discoverGlassesE (scan : Except Unit (List Device)) (now : ℚ) :
    Except Unit (DiscoveryResult × PMState) :=
  match scan with
  | Except.error e => Except.error e
  | Except.ok devices =>
    let discovered := classifyFold devices
    Except.ok (discovered, ⟨discovered, now⟩)

/-- discover_glasses: on a scan exception the except handler returns the
empty dict and the cache is left untouched (the cache assignment sits after
the scan in the try block). -/
def discoverGlasses (scan : Except Unit (List Device)) (now : ℚ) (st : PMState) :
    DiscoveryResult × PMState :=
  match discoverGlassesE scan now with
  | Except.ok r => r
  | Except.error _ => (⟨none, none⟩, st)

/-- Outcome injection for one pairing attempt: whether each awaited call in
the attempt's try block raises, and whether the freshly connected client
reports is_connected.  stateRaises covers an exception from the
initial-state query (handle_state_change); its returned state being falsy is
only logged and is not an outcome distinction. -/
structure AttemptEnv where
  connectRaises : Bool
  isConnected : Bool
  pairRaises : Bool
  disconnectRaises : Bool
  stateRaises : Bool
deriving DecidableEq

/-- How one iteration of the retry loop ends: full success returning True, an
exception caught by the attempt's except handler, or a connect that returned
with is_connected false (which just falls through to the next attempt). -/
inductive AttemptOutcome
  | success
  | raised
  | notConnected
deriving DecidableEq

/-- One iteration of the retry loop in _attempt_pairing.  After a successful
pair() the side's paired flag is set and save() is called before the
disconnect and the initial-state query, so an exception in those later steps
leaves the flag durably persisted while the attempt still counts as
failed. -/
def runAttempt (isLeft : Bool) (e : AttemptEnv) (cfg : ConfigStore) :
    AttemptOutcome × ConfigStore :=
  if e.connectRaises then (AttemptOutcome.raised, cfg)
  else if !e.isConnected then (AttemptOutcome.notConnected, cfg)
  else if e.pairRaises then (AttemptOutcome.raised, cfg)
  else
    let mem' := if isLeft then { cfg.mem with left_paired := true }
                else { cfg.mem with right_paired := true }
    let cfg' : ConfigStore := ⟨mem', mem'⟩
    if e.disconnectRaises then (AttemptOutcome.raised, cfg')
    else if e.stateRaises then (AttemptOutcome.raised, cfg')
    else (AttemptOutcome.success, cfg')

/-- The retry loop of _attempt_pairing: attempt number i draws its outcomes
from envs i; returns the boolean result, the final config store, and the
number of connect invocations made. -/
def attemptLoop (isLeft : Bool) (envs : ℕ → AttemptEnv) :
    ℕ → ℕ → ConfigStore → Bool × ConfigStore × ℕ
  | _, 0, cfg => (false, cfg, 0)
  | i, n + 1, cfg =>
    match runAttempt isLeft (envs i) cfg with
    | (AttemptOutcome.success, cfg') => (true, cfg', 1)
    | (_, cfg') =>
      let r := attemptLoop isLeft envs (i + 1) n cfg'
      (r.1, r.2.1, r.2.2 + 1)

/-- _attempt_pairing with the given max_attempts (the source default is 3).
The outer try block of the source cannot raise once every awaited call in an
attempt is handled by the inner except, so the retry loop is the whole
behavior. -/
def attemptPairing (isLeft : Bool) (envs : ℕ → AttemptEnv) (maxAttempts : ℕ)
    (cfg : ConfigStore) : Bool × ConfigStore × ℕ :=
  attemptLoop isLeft envs 0 maxAttempts cfg

/-- An attempt returns True exactly when connect raises nothing, the client
reports is_connected, and pair, disconnect and the initial-state query all
complete without exception. -/
def attemptFullSuccess (e : AttemptEnv) : Bool :=
  !e.connectRaises && e.isConnected && !e.pairRaises &&
    !e.disconnectRaises && !e.stateRaises

/-- Outcome injection for pair_glasses: the scan outcome and time used by the
conditional rescan, and the per-attempt outcomes for each side's
_attempt_pairing call. -/
structure PairEnv where
  scan : Except Unit (List Device)
  now : ℚ
  leftEnvs : ℕ → AttemptEnv
  rightEnvs : ℕ → AttemptEnv

/-- Result record of pair_glasses: boolean result, pairing-manager state,
config store, and whether a fresh discovery scan was triggered. -/
structure PairResult where
  result : Bool
  st : PMState
  cfg : ConfigStore
  didScan : Bool

/-- pair_glasses after the optional rescan: checks the instance cache (not
the value discover_glasses returned), copies both sides' address and name
into the in-memory config object, then pairs left and right in order,
short-circuiting when the left side fails. -/
def pairAfterScan (leftEnvs rightEnvs : ℕ → AttemptEnv) (st1 : PMState)
    (cfg : ConfigStore) (didScan : Bool) : PairResult :=
  match st1.cache.left, st1.cache.right with
  | some l, some r =>
    let cfg1 : ConfigStore :=
      { cfg with mem := { cfg.mem with
          left_address := some l.address, right_address := some r.address,
          left_name := some l.name, right_name := some r.name } }
    let resL := attemptPairing true leftEnvs 3 cfg1
    if resL.1 = false then ⟨false, st1, resL.2.1, didScan⟩
    else
      let resR := attemptPairing false rightEnvs 3 resL.2.1
      ⟨resR.1, st1, resR.2.1, didScan⟩
  | _, _ => ⟨false, st1, cfg, didScan⟩

/-- Body of pair_glasses: a fresh discover_glasses call is made exactly when
the cache dict is falsy or its age exceeds 60 seconds; nothing in the body
can raise past the handlers already inside discover_glasses and
_attempt_pairing. -/
def pairGlassesE (env : PairEnv) (st : PMState) (cfg : ConfigStore) :
    Except Unit PairResult :=
  let needScan := cacheEmptyB st.cache || decide ((60 : ℚ) < env.now - st.lastScan)
  let st1 := if needScan then (discoverGlasses env.scan env.now st).2 else st
  Except.ok (pairAfterScan env.leftEnvs env.rightEnvs st1 cfg needScan)

/-- pair_glasses with its outer catch-all handler returning False. -/
def pairGlasses (env : PairEnv) (st : PMState) (cfg : ConfigStore) : PairResult :=
  match pairGlassesE env st cfg with
  | Except.ok r => r
  | Except.error _ => ⟨false, st, cfg, false⟩

/-- Outcome injection for verify_pairing: for each side and pass, whether any
awaited call in that side's try block raises (connect or disconnect in the
first reachability pass; connect, pair or disconnect in the second pass). -/
structure VerifyEnv where
  probe1L : Bool
  probe1R : Bool
  pass2L : Bool
  pass2R : Bool
deriving DecidableEq

/-- Result record of verify_pairing: boolean result, config store, number of
connect invocations, and number of save() calls. -/
structure VerifyResult where
  result : Bool
  cfg : ConfigStore
  connects : ℕ
  saves : ℕ
deriving DecidableEq

/-- Body of verify_pairing: fail fast on a falsy saved address; first pass
probes each side with connect and disconnect, aborting on the first failing
side; when either paired flag is unset, a second pass connects, pairs and
disconnects per side, setting that side's in-memory paired flag on success
and calling save() once only after both sides succeeded.  Every raise of an
awaited call is consumed by a per-side except that returns False, so the
body itself never ends in an error. -/
def verifyPairingE (env : VerifyEnv) (cfg : ConfigStore) :
    Except Unit VerifyResult :=
  if addrFalsy cfg.mem.left_address || addrFalsy cfg.mem.right_address then
    Except.ok ⟨false, cfg, 0, 0⟩
  else if env.probe1L then Except.ok ⟨false, cfg, 1, 0⟩
  else if env.probe1R then Except.ok ⟨false, cfg, 2, 0⟩
  else if !cfg.mem.left_paired || !cfg.mem.right_paired then
    if env.pass2L then Except.ok ⟨false, cfg, 3, 0⟩
    else
      let cfg1 : ConfigStore := { cfg with mem := { cfg.mem with left_paired := true } }
      if env.pass2R then Except.ok ⟨false, cfg1, 4, 0⟩
      else
        let cfg2 : ConfigStore := { cfg1 with mem := { cfg1.mem with right_paired := true } }
        Except.ok ⟨true, ⟨cfg2.mem, cfg2.mem⟩, 4, 1⟩
  else Except.ok ⟨true, cfg, 2, 0⟩

/-- verify_pairing with its outer catch-all handler returning False. -/
def verifyPairing (env : VerifyEnv) (cfg : ConfigStore) : VerifyResult :=
  match verifyPairingE env cfg with
  | Except.ok r => r
  | Except.error _ => ⟨false, cfg, 0, 0⟩

/-- Body of unpair_glasses: plain attribute assignments clearing the
in-memory paired flags, addresses and names; no save() touches the disk
record and nothing here can raise. -/
def unpairGlassesE (cfg : ConfigStore) : Except Unit ConfigStore :=
  Except.ok { cfg with mem := { cfg.mem with
      left_paired := false, right_paired := false,
      left_address := none, right_address := none,
      left_name := none, right_name := none } }

/-- unpair_glasses with its outer catch-all handler (which only logs). -/
def unpairGlasses (cfg : ConfigStore) : ConfigStore :=
  match unpairGlassesE cfg with
  | Except.ok c => c
  | Except.error _ => cfg

/-- One dispatcher call's outcome: the send raises, or it returns None, or it
returns a response byte list. -/
inductive SendOutcome
  | raise
  | ret (response : Option (List ℕ))

/-- The two-byte silent-mode command frame (opcode plus 0x01 or 0x00).  The
opcode constant lives in utils/constants (not under src), so it stays a
parameter. -/
def silentCommand (dashOpen : ℕ) (enabled : Bool) : List ℕ :=
  [dashOpen, if enabled then 1 else 0]

/-- Modelled from the spec: connector.update_status (code not under src) is
the refresh-status notification hook invoked after a confirmed silent-mode
change; the spec gives it no failure mode, so it is a no-op here. -/
def updateStatus : Unit := ()

/-- Body of set_silent_mode: early True when enabled already matches the
state; otherwise one dispatcher send whose result is accepted exactly when it
is a truthy list whose index-1 byte equals the command-response category
constant (reading index 1 of a singleton response raises IndexError inside
the try block).  The error payload records how many sends were made before
the raise.  Returns ((result, new silent state), sends). -/
def setSilentModeE (dashOpen ack : ℕ) (dispatch : List ℕ → SendOutcome)
    (enabled silent : Bool) : Except ℕ ((Bool × Bool) × ℕ) :=
  if enabled == silent then Except.ok ((true, silent), 0)
  else
    match dispatch (silentCommand dashOpen enabled) with
    | SendOutcome.raise => Except.error 1
    | SendOutcome.ret none => Except.ok ((false, silent), 1)
    | SendOutcome.ret (some r) =>
      if r == [] then Except.ok ((false, silent), 1)
      else
        match r[1]? with
        | none => Except.error 1
        | some b =>
          if b == ack then
            let _u := updateStatus
            Except.ok ((true, enabled), 1)
          else Except.ok ((false, silent), 1)

/-- set_silent_mode with its catch-all handler returning False and leaving
the state unchanged. -/
def setSilentMode (dashOpen ack : ℕ) (dispatch : List ℕ → SendOutcome)
    (enabled silent : Bool) : (Bool × Bool) × ℕ :=
  match setSilentModeE dashOpen ack dispatch enabled silent with
  | Except.ok r => r
  | Except.error n => ((false, silent), n)

/-- Two consecutive set_silent_mode calls with the same requested value,
threading the silent-mode state; returns the second call's result paired
with the total number of dispatcher sends. -/
def twoCalls (dashOpen ack : ℕ) (d1 d2 : List ℕ → SendOutcome) (x s : Bool) :
    (Bool × Bool) × ℕ :=
  let r1 := setSilentMode dashOpen ack d1 x s
  let r2 := setSilentMode dashOpen ack d2 x r1.1.2
  (r2.1, r1.2 + r2.2)

/-- The last element of the scan list satisfying p, mirroring how a later
matching device overwrites an earlier one in the classification loop. -/
def lastMatch (p : Device → Bool) : List Device → Option Device
  | [] => none
  | d :: ds =>
    match lastMatch p ds with
    | some x => some x
    | none => if p d then some d else none

/-- A device lands in the left slot iff its name is truthy and holds the left
marker. -/
def leftMatch (d : Device) : Bool :=
  !(d.name == "") && containsMarker "_L_" d.name

/-- A device lands in the right slot iff its name is truthy, misses the left
marker (the classification's elif) and holds the right marker. -/
def rightMatch (d : Device) : Bool :=
  !(d.name == "") && !containsMarker "_L_" d.name && containsMarker "_R_" d.name

theorem runAttempt_success_iff (isLeft : Bool) (e : AttemptEnv) (cfg : ConfigStore) :
    (runAttempt isLeft e cfg).1 = AttemptOutcome.success ↔ attemptFullSuccess e = true := by
  obtain ⟨c, w, p, d, s⟩ := e
  cases c <;> cases w <;> cases p <;> cases d <;> cases s <;>
    simp [runAttempt, attemptFullSuccess]

theorem attemptLoop_connects_le (isLeft : Bool) (envs : ℕ → AttemptEnv) :
    ∀ (n i : ℕ) (cfg : ConfigStore), (attemptLoop isLeft envs i n cfg).2.2 ≤ n := by
  intro n
  induction n with
  | zero => intro i cfg; simp [attemptLoop]
  | succ m ih =>
    intro i cfg
    rcases hra : runAttempt isLeft (envs i) cfg with ⟨out, cfg2⟩
    cases out with
    | success => simp [attemptLoop, hra]
    | raised =>
      simp only [attemptLoop, hra]
      exact Nat.succ_le_succ (ih (i + 1) cfg2)
    | notConnected =>
      simp only [attemptLoop, hra]
      exact Nat.succ_le_succ (ih (i + 1) cfg2)

theorem attemptLoop_true_iff (isLeft : Bool) (envs : ℕ → AttemptEnv) :
    ∀ (n i : ℕ) (cfg : ConfigStore),
      (attemptLoop isLeft envs i n cfg).1 = true ↔
        ∃ j, j < n ∧ attemptFullSuccess (envs (i + j)) = true := by
  intro n
  induction n with
  | zero => intro i cfg; simp [attemptLoop]
  | succ m ih =>
    intro i cfg
    rcases hra : runAttempt isLeft (envs i) cfg with ⟨out, cfg2⟩
    have hout : (out = AttemptOutcome.success) ↔ attemptFullSuccess (envs i) = true := by
      rw [← runAttempt_success_iff isLeft (envs i) cfg, hra]
    cases out with
    | success =>
      have hfull : attemptFullSuccess (envs i) = true := hout.mp rfl
      constructor
      · intro _
        exact ⟨0, Nat.succ_pos m, by simpa using hfull⟩
      · intro _
        simp [attemptLoop, hra]
    | raised =>
      have hfail : attemptFullSuccess (envs i) = false := by
        cases hgf : attemptFullSuccess (envs i)
        · rfl
        · exact absurd (hout.mpr hgf) (by simp)
      simp only [attemptLoop, hra]
      rw [ih (i + 1) cfg2]
      constructor
      · rintro ⟨j, hj, hf⟩
        refine ⟨j + 1, by omega, ?_⟩
        have he : i + 1 + j = i + (j + 1) := by omega
        rwa [he] at hf
      · rintro ⟨j, hj, hf⟩
        cases j with
        | zero => rw [Nat.add_zero] at hf; exact absurd hf (by simp [hfail])
        | succ k =>
          refine ⟨k, by omega, ?_⟩
          have he : i + 1 + k = i + (k + 1) := by omega
          rwa [he]
    | notConnected =>
      have hfail : attemptFullSuccess (envs i) = false := by
        cases hgf : attemptFullSuccess (envs i)
        · rfl
        · exact absurd (hout.mpr hgf) (by simp)
      simp only [attemptLoop, hra]
      rw [ih (i + 1) cfg2]
      constructor
      · rintro ⟨j, hj, hf⟩
        refine ⟨j + 1, by omega, ?_⟩
        have he : i + 1 + j = i + (j + 1) := by omega
        rwa [he] at hf
      · rintro ⟨j, hj, hf⟩
        cases j with
        | zero => rw [Nat.add_zero] at hf; exact absurd hf (by simp [hfail])
        | succ k =>
          refine ⟨k, by omega, ?_⟩
          have he : i + 1 + k = i + (k + 1) := by omega
          rwa [he]

theorem attemptLoop_connects_first (isLeft : Bool) (envs : ℕ → AttemptEnv) :
    ∀ (j i n : ℕ) (cfg : ConfigStore), j < n →
      attemptFullSuccess (envs (i + j)) = true →
      (∀ k, k < j → attemptFullSuccess (envs (i + k)) = false) →
      (attemptLoop isLeft envs i n cfg).2.2 = j + 1 := by
  intro j
  induction j with
  | zero =>
    intro i n cfg hn hfull _
    obtain ⟨m, rfl⟩ : ∃ m, n = m + 1 := ⟨n - 1, by omega⟩
    rcases hra : runAttempt isLeft (envs i) cfg with ⟨out, cfg2⟩
    have hout : out = AttemptOutcome.success := by
      rw [show out = (runAttempt isLeft (envs i) cfg).1 by rw [hra]]
      rw [runAttempt_success_iff]
      simpa using hfull
    subst hout
    simp [attemptLoop, hra]
  | succ k ihk =>
    intro i n cfg hn hfull hmin
    obtain ⟨m, rfl⟩ : ∃ m, n = m + 1 := ⟨n - 1, by omega⟩
    have h0 : attemptFullSuccess (envs i) = false := by
      simpa using hmin 0 (by omega)
    rcases hra : runAttempt isLeft (envs i) cfg with ⟨out, cfg2⟩
    have hout : out ≠ AttemptOutcome.success := by
      intro h
      have : (runAttempt isLeft (envs i) cfg).1 = AttemptOutcome.success := by rw [hra, h]
      rw [runAttempt_success_iff] at this
      simp [h0] at this
    have hrest : (attemptLoop isLeft envs (i + 1) m cfg2).2.2 = k + 1 := by
      refine ihk (i + 1) m cfg2 (by omega) ?_ ?_
      · have he : i + 1 + k = i + (k + 1) := by omega
        rwa [he]
      · intro k2 hk2
        have he : i + 1 + k2 = i + (k2 + 1) := by omega
        rw [he]
        exact hmin (k2 + 1) (by omega)
    cases out with
    | success => exact absurd rfl hout
    | raised => simp only [attemptLoop, hra]; rw [hrest]
    | notConnected => simp only [attemptLoop, hra]; rw [hrest]

/-- Claim C1 (amended): attemptPairing invokes connect at most maxAttempts
times; it returns success exactly when some attempt fully completes, meaning
connect raises nothing, the fresh client reports a live connection, and the
pairing handshake, the finalizing disconnect and the initial-state query all
complete without exception; on the first such attempt it stops, having made
exactly that many connect invocations.  (The original claim counted an
attempt as successful as soon as connect and pair alone completed, and
counted every non-success as a raise; the code also retries when a later
step of the attempt raises, and an attempt whose connect returns without a
live connection ends the attempt without any exception.) -/
theorem attemptPairing_retry_bound (isLeft : Bool) (envs : ℕ → AttemptEnv)
    (n : ℕ) (cfg : ConfigStore) :
    (attemptPairing isLeft envs n cfg).2.2 ≤ n ∧
    ((attemptPairing isLeft envs n cfg).1 = true ↔
      ∃ j, j < n ∧ attemptFullSuccess (envs j) = true) ∧
    (∀ j, j < n → attemptFullSuccess (envs j) = true →
      (∀ k, k < j → attemptFullSuccess (envs k) = false) →
      (attemptPairing isLeft envs n cfg).1 = true ∧
      (attemptPairing isLeft envs n cfg).2.2 = j + 1) := by
  refine ⟨attemptLoop_connects_le isLeft envs n 0 cfg, ?_, ?_⟩
  · have h := attemptLoop_true_iff isLeft envs n 0 cfg
    simpa [attemptPairing] using h
  · intro j hj hf hmin
    constructor
    · have h := attemptLoop_true_iff isLeft envs n 0 cfg
      rw [attemptPairing, h]
      exact ⟨j, hj, by simpa using hf⟩
    · have h := attemptLoop_connects_first isLeft envs j 0 n cfg hj
        (by simpa using hf) (fun k hk => by simpa using hmin k hk)
      exact h

/-- Claim C1 (witness): with two attempts whose outcomes all succeed, the
first attempt already pairs, one connect invocation is made and the call
returns success. -/
theorem attemptPairing_retry_bound_witness :
    (attemptPairing true (fun _ => ⟨false, true, false, false, false⟩) 2
      ⟨⟨none, none, none, none, false, false⟩,
       ⟨none, none, none, none, false, false⟩⟩).1 = true ∧
    (attemptPairing true (fun _ => ⟨false, true, false, false, false⟩) 2
      ⟨⟨none, none, none, none, false, false⟩,
       ⟨none, none, none, none, false, false⟩⟩).2.2 = 0 + 1 := by
  exact (attemptPairing_retry_bound true (fun _ => ⟨false, true, false, false, false⟩) 2
    ⟨⟨none, none, none, none, false, false⟩,
     ⟨none, none, none, none, false, false⟩⟩).2.2 0 (by decide) (by decide)
    (fun k hk => absurd hk (Nat.not_lt_zero k))

/-- Claim C1 (counterexample): the claim as stated fails on the code.  Take
two attempts: in the first, connect returns without raising but the client
reports no live connection; in the second, connect and pair both complete
without exception and the finalizing disconnect raises.  The call returns
failure, although not every attempt raised an exception (the first raised
nothing) and although the second attempt completed connect and pair without
exception (which the claim says returns success). -/
theorem attemptPairing_c1_counterexample :
    ((attemptPairing true
        (fun k => if k == 0 then ⟨false, false, false, false, false⟩
                  else ⟨false, true, false, true, false⟩) 2
        ⟨⟨none, none, none, none, false, false⟩,
         ⟨none, none, none, none, false, false⟩⟩).1 = false) ∧
    ((fun k => if k == 0 then (⟨false, false, false, false, false⟩ : AttemptEnv)
               else ⟨false, true, false, true, false⟩) 0).connectRaises = false ∧
    ((fun k => if k == 0 then (⟨false, false, false, false, false⟩ : AttemptEnv)
               else ⟨false, true, false, true, false⟩) 0).pairRaises = false ∧
    ((fun k => if k == 0 then (⟨false, false, false, false, false⟩ : AttemptEnv)
               else ⟨false, true, false, true, false⟩) 1).connectRaises = false ∧
    ((fun k => if k == 0 then (⟨false, false, false, false, false⟩ : AttemptEnv)
               else ⟨false, true, false, true, false⟩) 1).isConnected = true ∧
    ((fun k => if k == 0 then (⟨false, false, false, false, false⟩ : AttemptEnv)
               else ⟨false, true, false, true, false⟩) 1).pairRaises = false := by
  decide

/-- Claim C9: _attempt_pairing is not atomic with respect to the config
store: when every attempt connects and pairs successfully but the later
disconnect raises, the call returns failure while save() has already durably
recorded the side's paired flag. -/
theorem attemptPairing_partial_persist :
    ((attemptPairing true (fun _ => ⟨false, true, false, true, false⟩) 3
      ⟨⟨none, none, none, none, false, false⟩,
       ⟨none, none, none, none, false, false⟩⟩).1 = false) ∧
    ((attemptPairing true (fun _ => ⟨false, true, false, true, false⟩) 3
      ⟨⟨none, none, none, none, false, false⟩,
       ⟨none, none, none, none, false, false⟩⟩).2.1.disk.left_paired = true) ∧
    ((⟨⟨none, none, none, none, false, false⟩,
       ⟨none, none, none, none, false, false⟩⟩ : ConfigStore).disk.left_paired = false) := by
  decide

/-- Claim C10: unpair_glasses clears the paired flags, addresses and display
names only on the in-memory config object and never calls save(), so the
persisted record is left unchanged. -/
theorem unpairGlasses_no_persist (cfg : ConfigStore) :
    (unpairGlasses cfg).disk = cfg.disk ∧
    (unpairGlasses cfg).mem.left_paired = false ∧
    (unpairGlasses cfg).mem.right_paired = false ∧
    (unpairGlasses cfg).mem.left_address = none ∧
    (unpairGlasses cfg).mem.right_address = none ∧
    (unpairGlasses cfg).mem.left_name = none ∧
    (unpairGlasses cfg).mem.right_name = none :=
  ⟨rfl, rfl, rfl, rfl, rfl, rfl, rfl⟩

/-- Claim C7: when either side's saved address is falsy, verify_pairing
returns false with no connection attempted and the config store untouched. -/
theorem verifyPairing_missing_address (env : VerifyEnv) (cfg : ConfigStore)
    (h : addrFalsy cfg.mem.left_address = true ∨ addrFalsy cfg.mem.right_address = true) :
    verifyPairing env cfg = ⟨false, cfg, 0, 0⟩ := by
  unfold verifyPairing verifyPairingE
  rcases h with h | h <;> simp [h]

/-- Claim C7 (witness): a config store with no saved left address makes
verify_pairing fail fast. -/
theorem verifyPairing_missing_address_witness :
    verifyPairing ⟨false, false, false, false⟩
      ⟨⟨none, some "BB", none, none, false, false⟩,
       ⟨none, some "BB", none, none, false, false⟩⟩ =
      ⟨false,
       ⟨⟨none, some "BB", none, none, false, false⟩,
        ⟨none, some "BB", none, none, false, false⟩⟩, 0, 0⟩ :=
  verifyPairing_missing_address ⟨false, false, false, false⟩
    ⟨⟨none, some "BB", none, none, false, false⟩,
     ⟨none, some "BB", none, none, false, false⟩⟩ (Or.inl rfl)

/-- Claim C2: with both saved addresses present, both first-pass probes
succeeding and at least one paired flag unset, verify_pairing runs the second
pass: it returns true exactly when both sides' pairing handshakes complete,
calls save() exactly once and only in that case (after both in-memory flags
were set), sets the left in-memory flag as soon as the left side succeeds,
sets the right flag only when both succeed (the right side is not attempted
after a left failure), and makes one extra connect for a failing left side or
two when the left side succeeds. -/
theorem verifyPairing_second_pass (env : VerifyEnv) (cfg : ConfigStore)
    (haL : addrFalsy cfg.mem.left_address = false)
    (haR : addrFalsy cfg.mem.right_address = false)
    (hp1L : env.probe1L = false) (hp1R : env.probe1R = false)
    (hflag : (cfg.mem.left_paired && cfg.mem.right_paired) = false) :
    (verifyPairing env cfg).result = (!env.pass2L && !env.pass2R) ∧
    (verifyPairing env cfg).saves = (if !env.pass2L && !env.pass2R then 1 else 0) ∧
    (verifyPairing env cfg).connects = (if env.pass2L then 3 else 4) ∧
    (verifyPairing env cfg).cfg.mem.left_paired = (!env.pass2L || cfg.mem.left_paired) ∧
    (verifyPairing env cfg).cfg.mem.right_paired =
      (if !env.pass2L && !env.pass2R then true else cfg.mem.right_paired) ∧
    (verifyPairing env cfg).cfg.disk =
      (if !env.pass2L && !env.pass2R then (verifyPairing env cfg).cfg.mem else cfg.disk) := by
  have hguard : (!cfg.mem.left_paired || !cfg.mem.right_paired) = true := by
    cases hL : cfg.mem.left_paired <;> cases hR : cfg.mem.right_paired <;> simp_all
  unfold verifyPairing verifyPairingE
  cases h2L : env.pass2L <;> cases h2R : env.pass2R <;>
    simp [haL, haR, hp1L, hp1R, hguard]

/-- Claim C2 (witness): fresh addresses with neither flag set and every
transport call succeeding: verify_pairing returns true, saves once and
persists both flags. -/
theorem verifyPairing_second_pass_witness :
    (verifyPairing ⟨false, false, false, false⟩
      ⟨⟨some "AA", some "BB", none, none, false, false⟩,
       ⟨some "AA", some "BB", none, none, false, false⟩⟩).result = true ∧
    (verifyPairing ⟨false, false, false, false⟩
      ⟨⟨some "AA", some "BB", none, none, false, false⟩,
       ⟨some "AA", some "BB", none, none, false, false⟩⟩).saves = 1 ∧
    (verifyPairing ⟨false, false, false, false⟩
      ⟨⟨some "AA", some "BB", none, none, false, false⟩,
       ⟨some "AA", some "BB", none, none, false, false⟩⟩).connects = 4 ∧
    (verifyPairing ⟨false, false, false, false⟩
      ⟨⟨some "AA", some "BB", none, none, false, false⟩,
       ⟨some "AA", some "BB", none, none, false, false⟩⟩).cfg.disk =
      (verifyPairing ⟨false, false, false, false⟩
        ⟨⟨some "AA", some "BB", none, none, false, false⟩,
         ⟨some "AA", some "BB", none, none, false, false⟩⟩).cfg.mem := by
  have h := verifyPairing_second_pass ⟨false, false, false, false⟩
    ⟨⟨some "AA", some "BB", none, none, false, false⟩,
     ⟨some "AA", some "BB", none, none, false, false⟩⟩ rfl rfl rfl rfl rfl
  exact ⟨h.1, h.2.1, h.2.2.1, h.2.2.2.2.2⟩

theorem pairAfterScan_didScan (lE rE : ℕ → AttemptEnv) (st1 : PMState)
    (cfg : ConfigStore) (b : Bool) :
    (pairAfterScan lE rE st1 cfg b).didScan = b := by
  rcases hL : st1.cache.left with _ | l <;> rcases hR : st1.cache.right with _ | r <;>
    simp only [pairAfterScan, hL, hR]
  split <;> rfl

/-- Claim C4: pair_glasses triggers a fresh discovery scan exactly when the
discovery cache dict is empty or its age exceeds 60 seconds. -/
theorem pairGlasses_scan_iff (env : PairEnv) (st : PMState) (cfg : ConfigStore) :
    (pairGlasses env st cfg).didScan = true ↔
      (st.cache.left = none ∧ st.cache.right = none) ∨
        60 < env.now - st.lastScan := by
  have h : (pairGlasses env st cfg).didScan =
      (cacheEmptyB st.cache || decide ((60 : ℚ) < env.now - st.lastScan)) := by
    unfold pairGlasses pairGlassesE
    simp [pairAfterScan_didScan]
  rw [h]
  simp [cacheEmptyB, Option.isNone_iff_eq_none]

theorem setSilentMode_same (dashOpen ack : ℕ) (dispatch : List ℕ → SendOutcome)
    (x : Bool) : setSilentMode dashOpen ack dispatch x x = ((true, x), 0) := by
  unfold setSilentMode setSilentModeE
  simp

theorem setSilentMode_shape (dashOpen ack : ℕ) (dispatch : List ℕ → SendOutcome)
    (enabled silent : Bool) :
    (enabled = silent ∧
      setSilentMode dashOpen ack dispatch enabled silent = ((true, silent), 0)) ∨
    setSilentMode dashOpen ack dispatch enabled silent = ((false, silent), 1) ∨
    setSilentMode dashOpen ack dispatch enabled silent = ((true, enabled), 1) := by
  unfold setSilentMode setSilentModeE
  cases hbe : enabled == silent
  · rcases hd : dispatch (silentCommand dashOpen enabled) with _ | _ | r
    · right; left; simp [hbe, hd]
    · right; left; simp [hbe, hd]
    · cases hre : r == []
      · rcases hr1 : r[1]? with _ | b
        · right; left; simp [hbe, hd, hre, hr1]
        · cases hba : b == ack
          · right; left; simp [hbe, hd, hre, hr1, hba]
          · right; right; simp [hbe, hd, hre, hr1, hba]
      · right; left; simp [hbe, hd, hre]
  · left
    refine ⟨eq_of_beq hbe, ?_⟩
    simp [hbe, eq_of_beq hbe]

/-- Claim C3: when the requested silent-mode value differs from the current
state, set_silent_mode returns true with the state switched exactly when the
dispatcher returns a response list whose index-1 byte equals the
command-response category constant; for every other dispatcher outcome (no
response, a short or unexpected response, or a raise) it returns false and
leaves the state unchanged, with exactly one send either way. -/
theorem setSilentMode_ack (dashOpen ack : ℕ) (dispatch : List ℕ → SendOutcome)
    (enabled silent : Bool) (hne : enabled ≠ silent) :
    ((∃ r, dispatch (silentCommand dashOpen enabled) = SendOutcome.ret (some r) ∧
        r[1]? = some ack) →
      setSilentMode dashOpen ack dispatch enabled silent = ((true, enabled), 1)) ∧
    ((∀ r, dispatch (silentCommand dashOpen enabled) = SendOutcome.ret (some r) →
        r[1]? ≠ some ack) →
      setSilentMode dashOpen ack dispatch enabled silent = ((false, silent), 1)) := by
  have hbe : (enabled == silent) = false := by
    simp [hne]
  unfold setSilentMode setSilentModeE
  rcases hd : dispatch (silentCommand dashOpen enabled) with _ | _ | r
  · constructor
    · rintro ⟨r, hr, -⟩
      exact absurd hr (by simp)
    · intro _
      simp [hbe]
  · constructor
    · rintro ⟨r, hr, -⟩
      exact absurd hr (by simp)
    · intro _
      simp [hbe]
  · constructor
    · rintro ⟨r2, hr2, hack⟩
      have hrr : r2 = r := by
        injection hr2 with h
        injection h with h2
        exact h2.symm
      subst hrr
      have hne2 : (r2 == []) = false := by
        cases hre : r2 == []
        · rfl
        · have hnil : r2 = [] := eq_of_beq hre
          subst hnil
          simp at hack
      simp [hbe, hne2, hack]
    · intro hall
      have hnack := hall r rfl
      cases hre : r == []
      · rcases hr1 : r[1]? with _ | b
        · simp [hbe, hre, hr1]
        · have hba : (b == ack) = false := by
            cases hba2 : b == ack
            · rfl
            · exact absurd (by rw [hr1, eq_of_beq hba2]) hnack
          simp [hbe, hre, hr1, hba]
      · simp [hbe, hre]

/-- Claim C3 (witness): with the state off and an acknowledging two-byte
response, enabling silent mode succeeds, switches the state and sends once. -/
theorem setSilentMode_ack_witness :
    setSilentMode 38 4 (fun _ => SendOutcome.ret (some [0, 4])) true false =
      ((true, true), 1) :=
  (setSilentMode_ack 38 4 (fun _ => SendOutcome.ret (some [0, 4])) true false
    (by decide)).1 ⟨[0, 4], rfl, rfl⟩

/-- Claim C6 (amended): set_silent_mode with a value already matching the
state returns true immediately with no send; consequently two consecutive
calls with the same value perform at most one send whenever the first call
returns success.  (Unconditionally, the pair of calls can send twice: a
failed first toggle leaves the state unchanged, so the second call sends
again.) -/
theorem setSilentMode_idempotent (dashOpen ack : ℕ)
    (d1 d2 : List ℕ → SendOutcome) (x s : Bool) :
    (x = s → setSilentMode dashOpen ack d1 x s = ((true, s), 0)) ∧
    ((setSilentMode dashOpen ack d1 x s).1.1 = true →
      (twoCalls dashOpen ack d1 d2 x s).2 ≤ 1) := by
  constructor
  · intro h
    subst h
    exact setSilentMode_same dashOpen ack d1 x
  · intro hsucc
    rcases setSilentMode_shape dashOpen ack d1 x s with ⟨hxs, h1⟩ | h1 | h1
    · subst hxs
      simp [twoCalls, h1, setSilentMode_same]
    · rw [h1] at hsucc
      simp at hsucc
    · simp [twoCalls, h1, setSilentMode_same]

/-- Claim C6 (witness): with the state already off, asking for off returns
true without sending, and the consecutive pair of calls stays within one
send. -/
theorem setSilentMode_idempotent_witness :
    setSilentMode 38 4 (fun _ => SendOutcome.ret (some [0, 4])) false false =
      ((true, false), 0) ∧
    (twoCalls 38 4 (fun _ => SendOutcome.ret (some [0, 4]))
      (fun _ => SendOutcome.ret (some [0, 4])) false false).2 ≤ 1 := by
  have h := setSilentMode_idempotent 38 4 (fun _ => SendOutcome.ret (some [0, 4]))
    (fun _ => SendOutcome.ret (some [0, 4])) false false
  exact ⟨h.1 rfl, h.2 (by rw [h.1 rfl])⟩

/-- Claim C6 (counterexample): two consecutive calls with the same requested
value are not bounded by one send: with the state off, two requests to
enable against a dispatcher that answers with a non-acknowledging second
byte each time make two sends. -/
theorem twoCalls_counterexample :
    (twoCalls 38 4 (fun _ => SendOutcome.ret (some [0, 99]))
      (fun _ => SendOutcome.ret (some [0, 99])) true false).2 = 2 ∧
    ¬((twoCalls 38 4 (fun _ => SendOutcome.ret (some [0, 99]))
      (fun _ => SendOutcome.ret (some [0, 99])) true false).2 ≤ 1) := by
  refine ⟨rfl, by decide⟩

theorem classify_foldl_left (devices : List Device) : ∀ acc : DiscoveryResult,
    (devices.foldl classifyStep acc).left =
      (match lastMatch leftMatch devices with
       | some d => some (toEntry d)
       | none => acc.left) := by
  induction devices with
  | nil => intro acc; simp [lastMatch]
  | cons d ds ih =>
    intro acc
    rw [List.foldl_cons, ih]
    rcases h : lastMatch leftMatch ds with _ | x
    · simp only [lastMatch, h]
      cases hn : (d.name == "") <;> cases hL : containsMarker "_L_" d.name <;>
        cases hR : containsMarker "_R_" d.name <;>
        simp [classifyStep, leftMatch, hn, hL, hR]
    · simp [lastMatch, h]

theorem classify_foldl_right (devices : List Device) : ∀ acc : DiscoveryResult,
    (devices.foldl classifyStep acc).right =
      (match lastMatch rightMatch devices with
       | some d => some (toEntry d)
       | none => acc.right) := by
  induction devices with
  | nil => intro acc; simp [lastMatch]
  | cons d ds ih =>
    intro acc
    rw [List.foldl_cons, ih]
    rcases h : lastMatch rightMatch ds with _ | x
    · simp only [lastMatch, h]
      cases hn : (d.name == "") <;> cases hL : containsMarker "_L_" d.name <;>
        cases hR : containsMarker "_R_" d.name <;>
        simp [classifyStep, rightMatch, hn, hL, hR]
    · simp [lastMatch, h]

/-- Claim C5 (amended): on a successful scan, discover_glasses fills the left
slot with the most recently observed device whose truthy name holds the left
marker, and the right slot with the most recently observed device whose
truthy name holds the right marker but not the left one; devices with a
falsy name or with neither marker never appear.  (The original claim put
every right-marked device in the right slot; the classification's elif gives
the left marker precedence, so a name holding both markers goes left only,
never right.) -/
theorem discoverGlasses_classification (devices : List Device) (now : ℚ)
    (st : PMState) :
    (discoverGlasses (Except.ok devices) now st).1.left =
      Option.map toEntry (lastMatch leftMatch devices) ∧
    (discoverGlasses (Except.ok devices) now st).1.right =
      Option.map toEntry (lastMatch rightMatch devices) := by
  constructor
  · have h := classify_foldl_left devices ⟨none, none⟩
    rcases hm : lastMatch leftMatch devices with _ | d <;>
      rw [hm] at h <;>
      simpa [discoverGlasses, discoverGlassesE, classifyFold] using h
  · have h := classify_foldl_right devices ⟨none, none⟩
    rcases hm : lastMatch rightMatch devices with _ | d <;>
      rw [hm] at h <;>
      simpa [discoverGlasses, discoverGlassesE, classifyFold] using h

/-- Claim C5 (counterexample): a single scanned device with the truthy name
G1_L__R_1, which holds the right marker, is not classified right: the elif
over the left marker wins and the right slot stays absent, contradicting the
claim that each device with a name holding the right marker is classified
right. -/
theorem discoverGlasses_both_markers_counterexample :
    (discoverGlasses (Except.ok [⟨"G1_L__R_1", "AA", -50⟩]) 0
      ⟨⟨none, none⟩, 0⟩).1.right = none ∧
    containsMarker "_R_" "G1_L__R_1" = true ∧
    ("G1_L__R_1" == "") = false := by
  refine ⟨by rfl, by decide, by decide⟩

/-- Claim C8: no public operation lets an exception cross its boundary.  When
the discover_glasses body ends in a raise, the operation returns the empty
dict with the cache untouched; when the set_silent_mode body ends in a raise,
the operation returns false with the state unchanged; and the bodies of
pair_glasses, verify_pairing and unpair_glasses can never end in a raise at
all, every lower-level raise being consumed by an inner handler, so those
operations always return their plain results. -/
theorem public_ops_catch_all
    (scan : Except Unit (List Device)) (now : ℚ) (st : PMState)
    (dashOpen ack : ℕ) (dispatch : List ℕ → SendOutcome) (enabled silent : Bool)
    (penv : PairEnv) (pst : PMState) (pcfg : ConfigStore)
    (venv : VerifyEnv) (vcfg : ConfigStore) (ucfg : ConfigStore)
    (hd : excIsError (discoverGlassesE scan now) = true)
    (hs : excIsError (setSilentModeE dashOpen ack dispatch enabled silent) = true) :
    discoverGlasses scan now st = (⟨none, none⟩, st) ∧
    (setSilentMode dashOpen ack dispatch enabled silent).1 = (false, silent) ∧
    excIsError (pairGlassesE penv pst pcfg) = false ∧
    excIsError (verifyPairingE venv vcfg) = false ∧
    excIsError (unpairGlassesE ucfg) = false := by
  refine ⟨?_, ?_, ?_, ?_, rfl⟩
  · rcases h : discoverGlassesE scan now with e | r
    · unfold discoverGlasses
      rw [h]
    · rw [h] at hd
      simp [excIsError] at hd
  · rcases h : setSilentModeE dashOpen ack dispatch enabled silent with n | r
    · unfold setSilentMode
      rw [h]
    · rw [h] at hs
      simp [excIsError] at hs
  · rfl
  · unfold verifyPairingE
    split_ifs <;> rfl

/-- Claim C8 (witness): a raising scan and a raising dispatcher send are both
converted at the boundary into the documented plain results. -/
theorem public_ops_catch_all_witness :
    discoverGlasses (Except.error ()) 0 ⟨⟨none, none⟩, 0⟩ =
      (⟨none, none⟩, ⟨⟨none, none⟩, 0⟩) ∧
    (setSilentMode 38 4 (fun _ => SendOutcome.raise) true false).1 = (false, false) ∧
    excIsError (pairGlassesE
      ⟨Except.error (), 0, fun _ => ⟨true, false, false, false, false⟩,
       fun _ => ⟨true, false, false, false, false⟩⟩ ⟨⟨none, none⟩, 0⟩
      ⟨⟨none, none, none, none, false, false⟩,
       ⟨none, none, none, none, false, false⟩⟩) = false ∧
    excIsError (verifyPairingE ⟨false, false, false, false⟩
      ⟨⟨none, none, none, none, false, false⟩,
       ⟨none, none, none, none, false, false⟩⟩) = false ∧
    excIsError (unpairGlassesE
      ⟨⟨none, none, none, none, false, false⟩,
       ⟨none, none, none, none, false, false⟩⟩) = false :=
  public_ops_catch_all (Except.error ()) 0 ⟨⟨none, none⟩, 0⟩ 38 4
    (fun _ => SendOutcome.raise) true false
    ⟨Except.error (), 0, fun _ => ⟨true, false, false, false, false⟩,
     fun _ => ⟨true, false, false, false, false⟩⟩ ⟨⟨none, none⟩, 0⟩
    ⟨⟨none, none, none, none, false, false⟩,
     ⟨none, none, none, none, false, false⟩⟩
    ⟨false, false, false, false⟩
    ⟨⟨none, none, none, none, false, false⟩,
     ⟨none, none, none, none, false, false⟩⟩
    ⟨⟨none, none, none, none, false, false⟩,
     ⟨none, none, none, none, false, false⟩⟩
    rfl rfl
